import Mathlib

/-!
Shallow embedding of the reactive state-synchronization engine of
`src/taipy/gui/gui.py` (class `Gui`), for checking the specification
claims about variable binding, inbound message handling (UPDATE /
ACTION / DATA_UPDATE / REQUEST_UPDATE), change-notification fan-out,
and page/partial route registration.

Python values are modelled by the inductive `Value`; machine floats and
complex numbers are not modelled (no claim involves them).  Python
exceptions are modelled by `PyErr`; fallible code returns
`Except PyErr _`.  Dictionaries are insertion-ordered association
lists.  Components of the repository that are not under `src/`
(the expression evaluator, the scope manager, the adapter and data
accessor registries, small utils) are modelled from the spec, each with
a doc comment saying so.
-/

namespace TaipyGui

/-- Python runtime values, restricted to the shapes the claims exercise.
Dict values bound through `_bind` are wrapped in `_MapDictionary`; the
wrapper is modelled by the distinct constructor `vMapDict`.  A
`datetime.datetime` is modelled by its ISO-8601 string. -/
inductive Value where
  | vNone : Value
  | vBool (b : Bool) : Value
  | vInt (n : Int) : Value
  | vStr (s : String) : Value
  | vDate (iso : String) : Value
  | vList (elems : List Value) : Value
  | vDict (entries : List (String × Value)) : Value
  | vMapDict (entries : List (String × Value)) : Value

/-- Python exceptions that the code under `src/` raises or catches.
`SyntaxError` (raised by `add_page` on a bad page name) is folded into
the generic `exception` constructor: no handler in the source
distinguishes it. -/
inductive PyErr where
  | typeError : PyErr
  | keyError : PyErr
  | attributeError : PyErr
  | valueError (msg : String) : PyErr
  | exception (msg : String) : PyErr
deriving DecidableEq, Repr

/-- A scope (`_DataScopes` scope object): a mapping from variable name
to value, modelled as an insertion-ordered association list. -/
abbrev Scope := List (String × Value)

/-- Reading an attribute of a scope object (`getattr` / `attrgetter`). -/
def scopeGet (sc : Scope) (name : String) : Option Value :=
  match sc.find? (fun p => p.1 == name) with
  | some p => some p.2
  | none => none

/-- Writing an attribute of a scope object (`setattr` / `attrsetter`):
replaces the binding in place when present, appends otherwise. -/
def scopeSet (sc : Scope) (name : String) (v : Value) : Scope :=
  match sc with
  | [] => [(name, v)]
  | (k, w) :: rest =>
      if k == name then (name, v) :: rest else (k, w) :: scopeSet rest name v

/-- Python dict lookup `d[k]` returning `none` when the key is absent
(the utils helper `_get_dict_value`, modelled from its call sites:
a safe get that yields `None` for a missing key). -/
def dictGet (d : List (String × Value)) (k : String) : Option Value :=
  match d.find? (fun p => p.1 == k) with
  | some p => some p.2
  | none => none

/-- Python dict subscript `d[k]`: raises `KeyError` when absent. -/
def dictAccess (d : List (String × Value)) (k : String) : Except PyErr Value :=
  match dictGet d k with
  | some v => Except.ok v
  | none => Except.error PyErr.keyError

/-- Python truthiness (`if value:`). -/
def pyTruthy : Value → Bool
  | Value.vNone => false
  | Value.vBool b => b
  | Value.vInt n => n != 0
  | Value.vStr s => !s.isEmpty
  | Value.vDate _ => true
  | Value.vList l => !l.isEmpty
  | Value.vDict d => !d.isEmpty
  | Value.vMapDict d => !d.isEmpty

/-- Python `str()` on the value shapes the model covers; only the
string case is exercised by the claims. -/
def pyStr : Value → String
  | Value.vNone => "None"
  | Value.vBool b => if b then "True" else "False"
  | Value.vInt n => toString n
  | Value.vStr s => s
  | Value.vDate iso => iso
  | Value.vList _ => "[...]"
  | Value.vDict _ => "{...}"
  | Value.vMapDict _ => "{...}"

/-- ASCII whitespace, for the stripping `int(...)` performs. -/
def isSpaceChar (c : Char) : Bool :=
  c == ' ' || c == '\t' || c == '\n' || c == '\r'

/-- The natural number denoted by a list of decimal digits. -/
def digitsToNat (cs : List Char) : Nat :=
  cs.foldl (fun acc c => acc * 10 + (c.toNat - 48)) 0

/-- Python `int(s)` on a string: parses an optionally signed decimal
literal after stripping surrounding whitespace; any other string raises
`ValueError` (modelled as `none`). -/
def pyIntOfString (s : String) : Option Int :=
  let t := ((s.data.dropWhile isSpaceChar).reverse.dropWhile isSpaceChar).reverse
  match t with
  | [] => none
  | c :: cs =>
      if (c :: cs).all Char.isDigit then
        some (Int.ofNat (digitsToNat (c :: cs)))
      else if c == '-' && !cs.isEmpty && cs.all Char.isDigit then
        some (-(Int.ofNat (digitsToNat cs)))
      else if c == '+' && !cs.isEmpty && cs.all Char.isDigit then
        some (Int.ofNat (digitsToNat cs))
      else none

/-- Python `str.isidentifier()`, restricted to ASCII: nonempty, first
character a letter or underscore, the rest letters, digits or
underscores. -/
def pyIsIdentifier (s : String) : Bool :=
  match s.data with
  | [] => false
  | c :: cs => (c.isAlpha || c == '_') && cs.all (fun d => d.isAlphanum || d == '_')

/-- An action-callable attribute as the dispatcher sees it:
`isFunctionType` is `isinstance(f, FunctionType)` (a bound method of
the class is a `MethodType`, not a `FunctionType`), `argcount` is
`f.__code__.co_argcount`, and `raises` says whether invoking it raises
an exception. -/
structure ActionFn where
  name : String
  isFunctionType : Bool
  argcount : Nat
  raises : Bool

/-- One positional argument of an action-callback invocation. -/
inductive Arg where
  | selfArg : Arg
  | clientId (id : Option Value) : Arg
  | actionArg (a : Value) : Arg
  | payloadArg (v : Value) : Arg

/-- A recorded invocation of an action callback. -/
structure ActionCall where
  fn : String
  args : List Arg

/-- One `{name, payload}` entry of an outbound MULTIPLE_UPDATE. -/
structure WsEntry where
  name : String
  payload : Value

/-- An outbound websocket message (the emission trace of
`self._server._ws.emit`). -/
structure OutMsg where
  msgType : String
  payload : List WsEntry

/-- The observable state of one `Gui` engine.  `activeScope` is the
scope `_DataScopes.get_scope()` returns for the current session,
`globalScope` the one `get_global_scope()` returns.  `props` are the
variable names for which `_bind` installed a class-level property
(whose getter reads the active scope); `attrs` are the callable
attributes visible through `hasattr(self, name)` (methods and functions
attached by `bind_func` and friends).  The `updateCalls` and
`actionCalls` traces record invocations of the registered callbacks;
`outbox`, `warns` and `broadcasts` record emissions, warnings and
`broadcast_data` notifications. -/
structure GuiState where
  activeScope : Scope
  globalScope : Scope
  props : List String
  attrs : List (String × ActionFn)
  hasUpdateFn : Bool
  updateCalls : List (String × Value)
  actionFn : Option ActionFn
  actionCalls : List ActionCall
  depIndex : List (String × List String)
  outbox : List OutMsg
  warns : List String
  broadcasts : List (String × Value)
  reservedRoutes : List String
  routes : List String
  partialRoutes : List String

/-- The engine state right after `Gui.__init__` with no page arguments:
empty scopes and traces, and the reserved system routes
`["initialize", "flask-jsx"]` set up by the constructor. -/
def initState : GuiState :=
  { activeScope := []
    globalScope := []
    props := []
    attrs := []
    hasUpdateFn := false
    updateCalls := []
    actionFn := none
    actionCalls := []
    depIndex := []
    outbox := []
    warns := []
    broadcasts := []
    reservedRoutes := ["initialize", "flask-jsx"]
    routes := []
    partialRoutes := [] }

/-- Appends one warning to the trace (`warnings.warn`). -/
def warnSt (st : GuiState) (msg : String) : GuiState :=
  { st with warns := st.warns ++ [msg] }

/-- Python `hasattr(self, name)` on the engine.  A bound variable is
visible through the property `_bind` installed on the class: its getter
reads the active scope, so `hasattr` is true exactly when the active
scope holds the name (an `AttributeError` from the getter makes
`hasattr` return false).  Other attributes (`attrs`) are ordinary
lookups. -/
def hasattrGui (st : GuiState) (name : String) : Bool :=
  (st.attrs.find? (fun p => p.1 == name)).isSome
    || (name ∈ st.props && (scopeGet st.activeScope name).isSome)

/-- The value `_bind` actually stores: a dict is wrapped in a
`_MapDictionary`, everything else is stored as is. -/
def storeValue : Value → Value
  | Value.vDict entries => Value.vMapDict entries
  | v => v

/-- Embeds `Gui._bind_global`: copies the value into the global scope
only when the global scope has no binding for the name yet; otherwise
it returns without touching anything. -/
def bindGlobal (g : Scope) (name : String) (v : Value) : Scope :=
  if (scopeGet g name).isSome then g else scopeSet g name v

/-- Embeds `Gui._bind`: raises `ValueError` when the name is already an
attribute of the engine or is not a valid identifier; otherwise stores
the (possibly wrapped) value in the active scope, copies it into the
global scope via `_bind_global`, and installs the class property for
the name. -/
def bind (st : GuiState) (name : String) (v : Value) : Except PyErr GuiState :=
  if hasattrGui st name then
    Except.error (PyErr.valueError "variable is already bound")
  else if !pyIsIdentifier name then
    Except.error (PyErr.valueError "variable name is invalid")
  else
    Except.ok
      { st with
        activeScope := scopeSet st.activeScope name (storeValue v)
        globalScope := bindGlobal st.globalScope name (storeValue v)
        props := if name ∈ st.props then st.props else st.props ++ [name] }

/-- Embeds `Gui.bind_var_val`: binds only when the engine does not
already expose the name, returning whether a bind happened. -/
def bindVarVal (st : GuiState) (name : String) (v : Value) :
    Except PyErr (GuiState × Bool) :=
  if !hasattrGui st name then
    match bind st name v with
    | Except.ok st1 => Except.ok (st1, true)
    | Except.error e => Except.error e
  else
    Except.ok (st, false)

/-- Modelled from the spec: the expression evaluator (`_Evaluator`,
not under `src/`).  Spec 3 and 8 make the hash of a single-variable
expression the wire identifier of that variable, and the source comment
in `_update_var` states that expression and hash coincide exactly when
the expression is a single variable.  Every claim uses plain variable
names, so `get_hash_from_expr` is the identity on them. -/
def getHashFromExpr (expr : String) : String := expr

/-- Modelled from the spec: `_Evaluator.re_evaluate_expr` (not under
`src/`) returns, from the dependency index, the hashes of the
expressions depending on the changed variable, in first-registered
order, and the empty list when none are registered (spec 4.1). -/
def reEvaluateExpr (st : GuiState) (varName : String) : List String :=
  match st.depIndex.find? (fun p => p.1 == varName) with
  | some p => p.2
  | none => []

/-- Modelled from the spec: `_DataAccessors._cast_string_value` (not
under `src/`) returns the sentinel `None` when no caster applies
(spec 4.4); the modelled engine registers no special value types, so it
always returns the sentinel. -/
def castStringValue (varName : String) (currentvalue : Value) : Option Value :=
  none

/-- Modelled from the spec: `_DataAccessors._is_data_access` (not under
`src/`) is the detection predicate for registered accessor types
(spec 4.4); the modelled engine registers no data accessor, so it is
always false. -/
def isDataAccess (varName : String) (value : Value) : Bool := false

/-- Modelled from the spec: `_DataAccessors._get_data` (not under
`src/`) returns a serializable windowed response for the queried value
(spec 4.4); the window computation is opaque to the core, so the model
returns the value unchanged. -/
def getData (varName : String) (value : Value) (payload : Value) : Value :=
  value

/-- Modelled from the spec: `_Adapter._run_adapter_for_var` (not under
`src/`); with no adapter registered the raw value passes through
unchanged (spec 4.3). -/
def runAdapterForVar (varName : String) (value : Value) (index : Option String)
    (idOnly : Bool) : Value :=
  value

/-- Modelled from the spec: the utils helper `get_client_var_name` (not
under `src/`); the hash is itself the wire-level variable name
(spec glossary), so the model is the identity. -/
def getClientVarName (varName : String) : String := varName

/-- Modelled from the spec: the utils helper `ISOToDate` (not under
`src/`) parses an inbound ISO-8601 string into a datetime value. -/
def isoToDate (s : String) : Value := Value.vDate s

/-- Modelled from the spec: the utils helper `dateToISO` (not under
`src/`) serializes a datetime value to its canonical ISO-8601 string
(spec: change-notification fan-out). -/
def dateToISO (iso : String) : Value := Value.vStr iso

/-- Modelled from the spec: `_DataScopes.broadcast_data` (not under
`src/`) notifies secondary observers of a data change (spec 4.2); the
model records the notification in the `broadcasts` trace. -/
def broadcastData (st : GuiState) (varName : String) (v : Value) : GuiState :=
  { st with broadcasts := st.broadcasts ++ [(varName, v)] }

/-- Embeds `Gui._send_ws_update_with_dict`: builds one
`{name, payload}` entry per modified value, keeping a dict payload that
already has a `value` key and wrapping anything else as `{value: v}`,
then emits a single MULTIPLE_UPDATE message (the `emit` try/except
catches every transport error, so emission never raises). -/
def sendWsUpdateWithDict (st : GuiState) (modifiedValues : List (String × Value)) :
    GuiState :=
  let payload := modifiedValues.map (fun p =>
    WsEntry.mk (getClientVarName p.1)
      (match p.2 with
       | Value.vDict entries =>
           if (dictGet entries "value").isSome then Value.vDict entries
           else Value.vDict [("value", Value.vDict entries)]
       | v => Value.vDict [("value", v)]))
  { st with outbox := st.outbox ++ [OutMsg.mk "MULTIPLE_UPDATE" payload] }

/-- One iteration of the `__send_var_list_update` loop: reads the
current value of the variable (`attrgetter` raises `AttributeError`
when it is unbound), broadcasts it, serializes datetimes, emits a
`.refresh` marker for accessor-managed values, runs list values
element-wise through the adapter and scalar values once with
`id_only=True`, and skips values whose adapted result is still a
`_MapDictionary`. -/
def sendVarStep (acc : GuiState × List (String × Value)) (varName : String) :
    Except PyErr (GuiState × List (String × Value)) :=
  match scopeGet acc.1.activeScope varName with
  | none => Except.error PyErr.attributeError
  | some v0 =>
      let st1 := broadcastData acc.1 varName v0
      let newvalue := match v0 with
        | Value.vDate iso => dateToISO iso
        | v => v
      if isDataAccess varName newvalue then
        Except.ok (st1, acc.2 ++ [(varName ++ ".refresh", Value.vBool true)])
      else
        match newvalue with
        | Value.vList elems =>
            let adapted := (elems.enum.map (fun p =>
              runAdapterForVar varName p.2 (some (toString p.1)) false))
            Except.ok (st1, acc.2 ++ [(varName, Value.vList adapted)])
        | v =>
            let adapted := runAdapterForVar varName v none true
            match adapted with
            | Value.vMapDict _ => Except.ok (st1, acc.2)
            | w => Except.ok (st1, acc.2 ++ [(varName, w)])

/-- Folds `sendVarStep` over the modified variables, building the
outbound dictionary in insertion order. -/
def sendVarFold (acc : GuiState × List (String × Value)) :
    List String → Except PyErr (GuiState × List (String × Value))
  | [] => Except.ok acc
  | v :: rest =>
      match sendVarStep acc v with
      | Except.ok acc1 => sendVarFold acc1 rest
      | Except.error e => Except.error e

/-- Embeds `Gui.__send_var_list_update`: collects the outbound entries
for every modified variable and pushes them in one batched
MULTIPLE_UPDATE. -/
def sendVarListUpdate (st : GuiState) (modifiedVars : List String) :
    Except PyErr GuiState :=
  match sendVarFold (st, []) modifiedVars with
  | Except.ok acc => Except.ok (sendWsUpdateWithDict acc.1 acc.2)
  | Except.error e => Except.error e

/-- Embeds `Gui._update_var`: when `propagate` is true it writes the
value into the active scope under the expression hash and, when the
expression is a single variable (name equals hash), extends the
modified set with the re-evaluated dependents; it then invokes the
registered update callback with the variable name and the value it was
given, and finally sends the batched outbound update. -/
def updateVar (st : GuiState) (varName : String) (value : Value)
    (propagate : Bool) : Except PyErr GuiState :=
  let hashExpr := getHashFromExpr varName
  let stepped :=
    if propagate then
      let st1 := { st with activeScope := scopeSet st.activeScope hashExpr value }
      let extra := if varName == hashExpr then reEvaluateExpr st1 varName else []
      (st1, [hashExpr] ++ extra)
    else
      (st, [hashExpr])
  let st2 :=
    if stepped.1.hasUpdateFn then
      { stepped.1 with updateCalls := stepped.1.updateCalls ++ [(varName, value)] }
    else stepped.1
  sendVarListUpdate st2 stepped.2

/-- The type-coercion block at the head of `Gui._front_end_update`,
applied to the currently stored value and the incoming one: a string
payload is coerced by inspecting the stored value (datetime parses the
ISO string; an int or bool stored value takes the `int(...)` branch,
since a Python bool is an instance of `int`, with the empty string
giving `0` and an unparsable string raising `ValueError`); for any
other stored value the caster of 4.4 is consulted and a `none` result
drops the update (`none` here), while a successful cast forwards the
original raw string.  A non-string payload is passed through
uncoerced. -/
def coerceIncoming (varName : String) (currentvalue : Value) (value : Value) :
    Except PyErr (Option Value) :=
  match value with
  | Value.vStr s =>
      match currentvalue with
      | Value.vDate _ => Except.ok (some (isoToDate s))
      | Value.vInt _ =>
          if s.isEmpty then Except.ok (some (Value.vInt 0))
          else match pyIntOfString s with
            | some n => Except.ok (some (Value.vInt n))
            | none => Except.error (PyErr.valueError "invalid literal for int")
      | Value.vBool _ =>
          if s.isEmpty then Except.ok (some (Value.vInt 0))
          else match pyIntOfString s with
            | some n => Except.ok (some (Value.vInt n))
            | none => Except.error (PyErr.valueError "invalid literal for int")
      | cur =>
          match castStringValue varName cur with
          | none => Except.ok none
          | some _ => Except.ok (some (Value.vStr s))
  | v => Except.ok (some v)

/-- Embeds `Gui._front_end_update`: reads the currently stored value of
the variable (raising `AttributeError` when unbound), runs the
coercion block, silently returns when the coercion drops the update,
and otherwise hands the coerced value to `_update_var`. -/
def frontEndUpdate (st : GuiState) (varName : String) (value : Value)
    (propagate : Bool) : Except PyErr GuiState :=
  match scopeGet st.activeScope (getHashFromExpr varName) with
  | none => Except.error PyErr.attributeError
  | some currentvalue =>
      match coerceIncoming varName currentvalue value with
      | Except.ok none => Except.ok st
      | Except.ok (some v1) => updateVar st varName v1 propagate
      | Except.error e => Except.error e

/-- The invocation itself inside the `try` of
`Gui.__call_function_with_args`: a callback whose body raises does so
here; otherwise the invocation is recorded in the `actionCalls`
trace. -/
def invokeAction (st : GuiState) (f : ActionFn) (args : List Arg) :
    Except PyErr GuiState :=
  if f.raises then Except.error (PyErr.exception "action raised")
  else Except.ok { st with actionCalls := st.actionCalls ++ [ActionCall.mk f.name args] }

/-- The `try`/`except Exception` around one arity-resolved call in
`Gui.__call_function_with_args`: a completed call returns `True`; a
raising call is caught, logged as a warning, and the function returns
`False`. -/
def runCallCaught (st : GuiState) (f : ActionFn) (args : List Arg) :
    GuiState × Bool :=
  match invokeAction st f args with
  | Except.ok st1 => (st1, true)
  | Except.error _ => (warnSt st "on action exception", false)

/-- Embeds `Gui.__call_function_with_args`: a non-`FunctionType` object
(`none`, or an `ActionFn` with `isFunctionType = false`) is not called
and yields `False`; otherwise the positional arguments are chosen from
the declared argument count (0 to 4: self, client id, action, payload),
an argument count of 4 requiring the `action` keyword to be present,
and any other count logging a wrong-signature warning.  Exceptions from
the invoked callback never escape. -/
def callFunctionWithArgs (st : GuiState) (fn : Option ActionFn)
    (id : Option Value) (action : Option Value) (payload : Value) :
    GuiState × Bool :=
  match fn with
  | none => (st, false)
  | some f =>
      if !f.isFunctionType then (st, false)
      else if f.argcount == 0 then runCallCaught st f []
      else if f.argcount == 1 then runCallCaught st f [Arg.selfArg]
      else if f.argcount == 2 then runCallCaught st f [Arg.selfArg, Arg.clientId id]
      else if f.argcount == 3 then
        match action with
        | some a => runCallCaught st f [Arg.selfArg, Arg.clientId id, Arg.actionArg a]
        | none => runCallCaught st f [Arg.selfArg, Arg.clientId id, Arg.payloadArg payload]
      else if f.argcount == 4 then
        match action with
        | some a =>
            runCallCaught st f
              [Arg.selfArg, Arg.clientId id, Arg.actionArg a, Arg.payloadArg payload]
        | none => (warnSt st "wrong signature for action", false)
      else (warnSt st "wrong signature for action", false)

/-- The action-name extraction at the head of `Gui._on_action`: a dict
payload yields its `action` entry (possibly absent), any other payload
yields its `str(...)` form. -/
def extractedAction (payload : Value) : Option Value :=
  match payload with
  | Value.vDict entries => dictGet entries "action"
  | v => some (Value.vStr (pyStr v))

/-- The first branch of `Gui._on_action`: when the extracted action is
truthy and names an attribute of the engine, that attribute is called
with no `action` keyword (`hasattr` on a non-string action raises
`TypeError`; an attribute that is a bound variable rather than a
`FunctionType` is simply not called); the returned flag says whether
the engine call returned `True`. -/
def onActionEngine (st : GuiState) (id : Option Value) (payload : Value)
    (actionVal : Option Value) : Except PyErr (GuiState × Bool) :=
  match actionVal with
  | none => Except.ok (st, false)
  | some v =>
      if !pyTruthy v then Except.ok (st, false)
      else match v with
        | Value.vStr a =>
            if hasattrGui st a then
              Except.ok (callFunctionWithArgs st
                ((st.attrs.find? (fun p => p.1 == a)).map (fun p => p.2)) id none payload)
            else Except.ok (st, false)
        | _ => Except.error PyErr.typeError

/-- Embeds `Gui._on_action`: tries the engine attribute first; when
that call did not return `True` and a global action callback is
registered, the global callback is called with the `action` keyword set
to the extracted action value. -/
def onAction (st : GuiState) (id : Option Value) (payload : Value) :
    Except PyErr GuiState :=
  let actionVal := extractedAction payload
  match onActionEngine st id payload actionVal with
  | Except.error e => Except.error e
  | Except.ok (st1, handled) =>
      if handled then Except.ok st1
      else
        match st1.actionFn with
        | some f =>
            Except.ok (callFunctionWithArgs st1 (some f) id actionVal payload).1
        | none => Except.ok st1

/-- Embeds `Gui._request_data_update`: reads the current value of the
requested variable, resolves the windowed query through the data
accessor registry, and answers with a single-variable update plus a
`.refresh = false` flag. -/
def requestDataUpdate (st : GuiState) (varName : String) (payload : Value) :
    Except PyErr GuiState :=
  let hashed := getHashFromExpr varName
  match scopeGet st.activeScope hashed with
  | none => Except.error PyErr.attributeError
  | some newvalue =>
      let ret := getData hashed newvalue payload
      Except.ok (sendWsUpdateWithDict st
        [(hashed, ret), (hashed ++ ".refresh", Value.vBool false)])

/-- Python `key in container` for a string key: dicts and lists check
membership, strings check substring containment, and any other
container raises `TypeError`. -/
def pyContains (container : Value) (key : String) : Except PyErr Bool :=
  match container with
  | Value.vDict entries => Except.ok (dictGet entries key).isSome
  | Value.vMapDict entries => Except.ok (dictGet entries key).isSome
  | Value.vList elems => Except.ok (elems.any (fun e => match e with
      | Value.vStr s => s == key
      | _ => false))
  | Value.vStr s => Except.ok (s.data.tails.any (fun t => key.data.isPrefixOf t))
  | _ => Except.error PyErr.typeError

/-- Embeds `Gui._request_var_update`: when the payload carries a
`names` list, resends the current values of the listed hashes; each
listed name is fed to `attrgetter`, so a non-string entry raises
`TypeError`. -/
def requestVarUpdate (st : GuiState) (payload : Value) : Except PyErr GuiState :=
  match pyContains payload "names" with
  | Except.error e => Except.error e
  | Except.ok hasNames =>
      if hasNames then
        match payload with
        | Value.vDict entries =>
            match dictGet entries "names" with
            | some (Value.vList elems) =>
                let rec collect : List Value → Except PyErr (List String)
                  | [] => Except.ok []
                  | Value.vStr s :: rest =>
                      match collect rest with
                      | Except.ok ss => Except.ok (s :: ss)
                      | Except.error e => Except.error e
                  | _ :: _ => Except.error PyErr.typeError
                match collect elems with
                | Except.ok names => sendVarListUpdate st names
                | Except.error e => Except.error e
            | _ => Except.ok st
        | _ => Except.ok st
      else Except.ok st

/-- The wire value of `WsType.UPDATE` (the `wstype` module is not under
`src/`; the spec fixes the envelope type names). -/
def wsUPDATE : String := "UPDATE"

/-- The wire value of `WsType.ACTION`. -/
def wsACTION : String := "ACTION"

/-- The wire value of `WsType.DATA_UPDATE`. -/
def wsDATA : String := "DATA_UPDATE"

/-- The wire value of `WsType.REQUEST_UPDATE`. -/
def wsREQUEST : String := "REQUEST_UPDATE"

/-- The dispatch body of `Gui._manage_message`, before its two
`except` clauses: routes UPDATE, ACTION, DATA_UPDATE and
REQUEST_UPDATE to their handlers, reading the mandatory keys with the
raising subscript; an unrecognized message type falls through every
branch and returns without any effect.  A non-string variable name
raises `TypeError` when it reaches `attrgetter`. -/
def manageMessageRaw (st : GuiState) (msgType : String)
    (message : List (String × Value)) : Except PyErr GuiState :=
  if msgType == wsUPDATE then
    match dictAccess message "name" with
    | Except.error e => Except.error e
    | Except.ok nameV =>
        match dictAccess message "payload" with
        | Except.error e => Except.error e
        | Except.ok payloadV =>
            let propagate := match dictGet message "propagate" with
              | some v => pyTruthy v
              | none => true
            match nameV with
            | Value.vStr n => frontEndUpdate st n payloadV propagate
            | _ => Except.error PyErr.typeError
  else if msgType == wsACTION then
    match dictAccess message "payload" with
    | Except.error e => Except.error e
    | Except.ok payloadV => onAction st (dictGet message "name") payloadV
  else if msgType == wsDATA then
    match dictAccess message "name" with
    | Except.error e => Except.error e
    | Except.ok nameV =>
        match dictAccess message "payload" with
        | Except.error e => Except.error e
        | Except.ok payloadV =>
            match nameV with
            | Value.vStr n => requestDataUpdate st n payloadV
            | _ => Except.error PyErr.typeError
  else if msgType == wsREQUEST then
    match dictAccess message "payload" with
    | Except.error e => Except.error e
    | Except.ok payloadV => requestVarUpdate st payloadV
  else Except.ok st

/-- Embeds `Gui._manage_message`: the dispatch body wrapped in the two
handlers `except TypeError` and `except KeyError`, each of which logs a
warning and drops the message; any other exception propagates to the
caller. -/
def manageMessage (st : GuiState) (msgType : String)
    (message : List (String × Value)) : Except PyErr GuiState :=
  match manageMessageRaw st msgType message with
  | Except.error PyErr.typeError => Except.ok (warnSt st "decoding message has failed")
  | Except.error PyErr.keyError => Except.ok (warnSt st "cannot access key")
  | r => r

/-- The page-name pattern of `add_page`
(`^[\w\-\/]+$`, ASCII): nonempty, each character a letter, digit,
underscore, dash or forward slash. -/
def pageNameOk (name : String) : Bool :=
  !name.isEmpty
    && name.data.all (fun c => c.isAlphanum || c == '_' || c == '-' || c == '/')

/-- Embeds `Gui.add_page`: rejects a name that fails the pattern or
starts with a slash, a name already registered as a page route, and an
invalid renderer; otherwise appends the new page and its route.
`rendererOk` stands for `isinstance(renderer, PageRenderer)`. -/
def addPage (st : GuiState) (name : String) (rendererOk : Bool) :
    Except PyErr GuiState :=
  if !pageNameOk name then
    Except.error (PyErr.exception "page name is invalid")
  else if (match name.data with | c :: _ => c == '/' | [] => false) then
    Except.error (PyErr.exception "page name cannot start with slash")
  else if name ∈ st.routes then
    Except.error (PyErr.exception "page name is already defined")
  else if !rendererOk then
    Except.error (PyErr.exception "invalid PageRenderer")
  else
    Except.ok { st with routes := st.routes ++ [name] }

/-- Embeds `Gui.add_partial` (source name `add_partial`): the
auto-generated route of the new `Partial` is passed in as `route` (the
`Partial` class is not under `src/`).  A route already present among
the partial routes or the page routes only produces a warning; an
invalid renderer raises; otherwise, and also after the duplicate
warning, the partial route is appended. -/
def addPartialPage (st : GuiState) (route : String) (rendererOk : Bool) :
    Except PyErr GuiState :=
  let st1 :=
    if route ∈ st.partialRoutes || route ∈ st.routes then
      warnSt st "partial name is already defined"
    else st
  if !rendererOk then Except.error (PyErr.exception "invalid PageRenderer")
  else Except.ok { st1 with partialRoutes := st1.partialRoutes ++ [route] }

/-! Helper lemmas shared by the claim proofs. -/

theorem scopeGet_scopeSet_self (sc : Scope) (name : String) (v : Value) :
    scopeGet (scopeSet sc name v) name = some v := by
  induction sc with
  | nil => simp [scopeSet, scopeGet, List.find?]
  | cons p rest ih =>
      rcases p with ⟨k, w⟩
      by_cases h : k == name
      · simp [scopeSet, h, scopeGet, List.find?]
      · simpa [scopeSet, h, scopeGet, List.find?] using ih

/-! Scenario states shared by several claims: an engine with the single
variable `count` bound to the int `0`. -/

def c1Start : GuiState :=
  { initState with
    activeScope := [("count", Value.vInt 0)]
    globalScope := [("count", Value.vInt 0)]
    props := ["count"] }

def c1Msg : List (String × Value) :=
  [("type", Value.vStr "UPDATE"), ("name", Value.vStr "count"),
   ("payload", Value.vStr "5")]

def c1End : GuiState :=
  { c1Start with
    activeScope := [("count", Value.vInt 5)]
    outbox := [OutMsg.mk "MULTIPLE_UPDATE"
      [WsEntry.mk "count" (Value.vDict [("value", Value.vInt 5)])]]
    broadcasts := [("count", Value.vInt 5)] }

/-- C1: with `count` bound to the int `0`, handling the inbound UPDATE
message `{type: UPDATE, name: "count", payload: "5"}` (no `propagate`
key, so it defaults to true) coerces the string payload to the int `5`,
stores the int `5` for `count` in the active scope, and emits an
outbound MULTIPLE_UPDATE message whose payload sequence contains the
entry `{name: "count", payload: {value: 5}}`. -/
theorem claim1_update_count_scenario :
    manageMessage c1Start wsUPDATE c1Msg = Except.ok c1End ∧
    scopeGet c1End.activeScope "count" = some (Value.vInt 5) ∧
    ∃ m, m ∈ c1End.outbox ∧ m.msgType = "MULTIPLE_UPDATE" ∧
      WsEntry.mk "count" (Value.vDict [("value", Value.vInt 5)]) ∈ m.payload :=
  ⟨rfl, rfl, ⟨_, List.mem_singleton.mpr rfl, rfl, List.mem_singleton.mpr rfl⟩⟩

/-- C2: a second `_bind` of an already-bound name fails with a binding
error (`ValueError`), and a `_bind` whose name is not a valid
identifier also fails with a binding error; both checks happen before
any scope is touched, so a failing call returns the error without a
successor state. -/
theorem claim2_bind_error_on_duplicate_or_invalid :
    (∀ st name v w st1, bind st name v = Except.ok st1 →
      ∃ msg, bind st1 name w = Except.error (PyErr.valueError msg)) ∧
    (∀ st name v, pyIsIdentifier name = false →
      ∃ msg, bind st name v = Except.error (PyErr.valueError msg)) := by
  constructor
  · intro st name v w st1 h
    unfold bind at h
    split at h
    · exact Except.noConfusion h
    split at h
    · exact Except.noConfusion h
    injection h with h
    subst h
    have hmem : name ∈ (if name ∈ st.props then st.props else st.props ++ [name]) := by
      by_cases hp : name ∈ st.props <;> simp [hp]
    have hscope := scopeGet_scopeSet_self st.activeScope name (storeValue v)
    refine ⟨"variable is already bound", ?_⟩
    have hattr : hasattrGui
        { st with
          activeScope := scopeSet st.activeScope name (storeValue v)
          globalScope := bindGlobal st.globalScope name (storeValue v)
          props := if name ∈ st.props then st.props else st.props ++ [name] }
        name = true := by
      simp [hasattrGui, hmem, hscope]
    simp [bind, hattr]
  · intro st name v hid
    by_cases hb : hasattrGui st name
    · exact ⟨"variable is already bound", by simp [bind, hb]⟩
    · exact ⟨"variable name is invalid", by simp [bind, hb, hid]⟩

/-- Witness for C2: binding `count` into the fresh engine succeeds and
a second bind of `count` fails with a `ValueError`; binding the invalid
name `1x` fails with a `ValueError`. -/
theorem claim2_witness :
    (∃ msg, bind c1Start "count" (Value.vInt 1)
        = Except.error (PyErr.valueError msg)) ∧
    (∃ msg, bind initState "1x" (Value.vInt 0)
        = Except.error (PyErr.valueError msg)) :=
  ⟨claim2_bind_error_on_duplicate_or_invalid.1 initState "count" (Value.vInt 0)
      (Value.vInt 1) c1Start rfl,
   claim2_bind_error_on_duplicate_or_invalid.2 initState "1x" (Value.vInt 0)
      (by decide)⟩

/-- C9: when the global scope already holds a binding for a name, a
successful `_bind` of that name (from any session state) leaves the
global-scope value untouched while still writing the new value into the
binding session's own scope: first-bind-wins for defaults. -/
theorem claim9_first_bind_wins_global :
    ∀ st name v st1 w,
      scopeGet st.globalScope name = some w →
      bind st name v = Except.ok st1 →
      scopeGet st1.globalScope name = some w ∧
      scopeGet st1.activeScope name = some (storeValue v) := by
  intro st name v st1 w hg h
  unfold bind at h
  split at h
  · exact Except.noConfusion h
  split at h
  · exact Except.noConfusion h
  injection h with h
  subst h
  constructor
  · simp [bindGlobal, hg]
  · exact scopeGet_scopeSet_self _ _ _

def c9St : GuiState := { initState with globalScope := [("count", Value.vInt 7)] }

def c9End : GuiState :=
  { c9St with
    activeScope := [("count", Value.vInt 3)]
    props := ["count"] }

/-- Witness for C9: a session whose global scope already maps `count`
to `7` binds `count` to `3`; the global value stays `7` and the session
scope gets `3`. -/
theorem claim9_witness :
    scopeGet c9End.globalScope "count" = some (Value.vInt 7) ∧
    scopeGet c9End.activeScope "count" = some (storeValue (Value.vInt 3)) :=
  claim9_first_bind_wins_global c9St "count" (Value.vInt 3) c9End (Value.vInt 7)
    rfl rfl

/-- C10: for a name the engine already exposes, `bind_var_val` returns
`False`, raises nothing, and returns the state unchanged, every scope
included: the duplicate bind through this public entry point is a
silent no-op instead of the binding error the low-level `_bind`
raises. -/
theorem claim10_duplicate_bind_var_val_noop :
    ∀ st name v, hasattrGui st name = true →
      bindVarVal st name v = Except.ok (st, false) := by
  intro st name v h
  simp [bindVarVal, h]

/-- Witness for C10: re-binding the already-bound `count` through
`bind_var_val` returns `False` with the state untouched. -/
theorem claim10_witness :
    bindVarVal c1Start "count" (Value.vInt 9) = Except.ok (c1Start, false) :=
  claim10_duplicate_bind_var_val_noop c1Start "count" (Value.vInt 9) (by decide)

theorem sendVarStep_frame (acc acc1 : GuiState × List (String × Value))
    (varName : String) (h : sendVarStep acc varName = Except.ok acc1) :
    acc1.1.activeScope = acc.1.activeScope ∧
    acc1.1.globalScope = acc.1.globalScope ∧
    acc1.1.updateCalls = acc.1.updateCalls := by
  unfold sendVarStep at h
  cases hg : scopeGet acc.1.activeScope varName with
  | none => rw [hg] at h; exact Except.noConfusion h
  | some v0 =>
      rw [hg] at h
      cases v0 <;>
        simp only [dateToISO, isDataAccess, runAdapterForVar, broadcastData,
          Bool.false_eq_true, if_false, Except.ok.injEq] at h <;>
        rw [← h] <;> exact ⟨rfl, rfl, rfl⟩

theorem sendVarFold_frame :
    ∀ (vars : List String) (acc acc1 : GuiState × List (String × Value)),
      sendVarFold acc vars = Except.ok acc1 →
      acc1.1.activeScope = acc.1.activeScope ∧
      acc1.1.globalScope = acc.1.globalScope ∧
      acc1.1.updateCalls = acc.1.updateCalls := by
  intro vars
  induction vars with
  | nil =>
      intro acc acc1 h
      unfold sendVarFold at h
      injection h with h
      rw [← h]
      exact ⟨rfl, rfl, rfl⟩
  | cons v rest ih =>
      intro acc acc1 h
      unfold sendVarFold at h
      cases hs : sendVarStep acc v with
      | error e => rw [hs] at h; exact Except.noConfusion h
      | ok accMid =>
          rw [hs] at h
          obtain ⟨a1, a2, a3⟩ := sendVarStep_frame acc accMid v hs
          obtain ⟨b1, b2, b3⟩ := ih accMid acc1 h
          exact ⟨b1.trans a1, b2.trans a2, b3.trans a3⟩

theorem sendVarListUpdate_frame (st st1 : GuiState) (vars : List String)
    (h : sendVarListUpdate st vars = Except.ok st1) :
    st1.activeScope = st.activeScope ∧
    st1.globalScope = st.globalScope ∧
    st1.updateCalls = st.updateCalls := by
  unfold sendVarListUpdate at h
  cases hf : sendVarFold (st, []) vars with
  | error e => rw [hf] at h; exact Except.noConfusion h
  | ok acc =>
      rw [hf] at h
      injection h with h
      obtain ⟨a1, a2, a3⟩ := sendVarFold_frame vars (st, []) acc hf
      rw [← h]
      exact ⟨a1, a2, a3⟩

def c3Start : GuiState := { c1Start with hasUpdateFn := true }

def c3End : GuiState :=
  { c3Start with
    activeScope := [("count", Value.vInt 5)]
    updateCalls := [("count", Value.vInt 5)]
    outbox := [OutMsg.mk "MULTIPLE_UPDATE"
      [WsEntry.mk "count" (Value.vDict [("value", Value.vInt 5)])]]
    broadcasts := [("count", Value.vInt 5)] }

/-- Counterexample to C3 as stated: with `count` bound to the int `0`
and an update callback registered, handling the UPDATE with string
payload `"5"` invokes the callback with the coerced int `5`, not with
the raw pre-coercion string `"5"`: the recorded invocation list is
`[("count", 5)]` and differs from `[("count", "5")]`. -/
theorem claim3_counterexample :
    frontEndUpdate c3Start "count" (Value.vStr "5") true = Except.ok c3End ∧
    c3End.updateCalls = [("count", Value.vInt 5)] ∧
    c3End.updateCalls ≠ [("count", Value.vStr "5")] :=
  ⟨rfl, rfl, by simp [c3End, c3Start]⟩

/-- C3 as amended: for every UPDATE whose coercion succeeds, the
registered update callback is invoked exactly once, with the variable
name and the coerced (post-coercion) value, and this happens both when
`propagate` is true and when it is false. -/
theorem claim3_callback_once_post_coercion :
    ∀ st name raw cur v1 propagate st1,
      scopeGet st.activeScope (getHashFromExpr name) = some cur →
      coerceIncoming name cur raw = Except.ok (some v1) →
      st.hasUpdateFn = true →
      frontEndUpdate st name raw propagate = Except.ok st1 →
      st1.updateCalls = st.updateCalls ++ [(name, v1)] := by
  intro st name raw cur v1 propagate st1 hcur hco hfn h
  unfold frontEndUpdate at h
  simp only [hcur, hco] at h
  unfold updateVar at h
  cases propagate <;>
    simp only [Bool.false_eq_true, if_false, if_true, hfn] at h
  · obtain ⟨-, -, h3⟩ := sendVarListUpdate_frame _ _ _ h
    simpa using h3
  · obtain ⟨-, -, h3⟩ := sendVarListUpdate_frame _ _ _ h
    simpa using h3

/-- Witness for C3 as amended, at `propagate = false`: the callback
trace of the resulting state extends the starting one with exactly the
entry carrying the coerced int `7`. -/
theorem claim3_witness :
    frontEndUpdate c3Start "count" (Value.vStr "7") false
        = Except.ok { c3Start with
            updateCalls := [("count", Value.vInt 7)]
            outbox := [OutMsg.mk "MULTIPLE_UPDATE"
              [WsEntry.mk "count" (Value.vDict [("value", Value.vInt 0)])]]
            broadcasts := [("count", Value.vInt 0)] } ∧
    ({ c3Start with
        updateCalls := [("count", Value.vInt 7)]
        outbox := [OutMsg.mk "MULTIPLE_UPDATE"
          [WsEntry.mk "count" (Value.vDict [("value", Value.vInt 0)])]]
        broadcasts := [("count", Value.vInt 0)] } : GuiState).updateCalls
      = c3Start.updateCalls ++ [("count", Value.vInt 7)] :=
  ⟨rfl,
   claim3_callback_once_post_coercion c3Start "count" (Value.vStr "7")
     (Value.vInt 0) (Value.vInt 7) false _ rfl rfl rfl rfl⟩

/-- C4: handling an UPDATE with `propagate = false` leaves both the
active scope and the global scope exactly as they were, for the updated
variable and every other one: the scope write and dependent
recomputation happen only on the propagating path. -/
theorem claim4_no_propagate_keeps_scopes :
    ∀ st name v st1,
      frontEndUpdate st name v false = Except.ok st1 →
      st1.activeScope = st.activeScope ∧ st1.globalScope = st.globalScope := by
  intro st name v st1 h
  unfold frontEndUpdate at h
  cases hg : scopeGet st.activeScope (getHashFromExpr name) with
  | none => rw [hg] at h; exact Except.noConfusion h
  | some cur =>
      simp only [hg] at h
      cases hc : coerceIncoming name cur v with
      | error e => simp only [hc] at h; exact Except.noConfusion h
      | ok o =>
          simp only [hc] at h
          cases o with
          | none =>
              injection h with h
              rw [← h]
              exact ⟨rfl, rfl⟩
          | some v1 =>
              unfold updateVar at h
              simp only [Bool.false_eq_true, if_false] at h
              cases hfn : st.hasUpdateFn <;> simp only [hfn, if_true, if_false,
                  Bool.false_eq_true, Bool.true_eq_false] at h
              · obtain ⟨h1, h2, -⟩ := sendVarListUpdate_frame _ _ _ h
                exact ⟨h1, h2⟩
              · obtain ⟨h1, h2, -⟩ := sendVarListUpdate_frame _ _ _ h
                exact ⟨h1, h2⟩

/-- Witness for C4: a non-propagating UPDATE against the engine holding
`count = 0` leaves both scopes unchanged. -/
theorem claim4_witness :
    (frontEndUpdate c1Start "count" (Value.vStr "7") false
      = Except.ok { c1Start with
          outbox := [OutMsg.mk "MULTIPLE_UPDATE"
            [WsEntry.mk "count" (Value.vDict [("value", Value.vInt 0)])]]
          broadcasts := [("count", Value.vInt 0)] }) ∧
    ({ c1Start with
        outbox := [OutMsg.mk "MULTIPLE_UPDATE"
          [WsEntry.mk "count" (Value.vDict [("value", Value.vInt 0)])]]
        broadcasts := [("count", Value.vInt 0)] } : GuiState).activeScope
      = c1Start.activeScope ∧
    ({ c1Start with
        outbox := [OutMsg.mk "MULTIPLE_UPDATE"
          [WsEntry.mk "count" (Value.vDict [("value", Value.vInt 0)])]]
        broadcasts := [("count", Value.vInt 0)] } : GuiState).globalScope
      = c1Start.globalScope := by
  refine ⟨rfl, ?_, ?_⟩
  · exact (claim4_no_propagate_keeps_scopes c1Start "count" (Value.vStr "7") _ rfl).1
  · exact (claim4_no_propagate_keeps_scopes c1Start "count" (Value.vStr "7") _ rfl).2

def c5Msg : List (String × Value) :=
  [("type", Value.vStr "UPDATE"), ("name", Value.vStr "count"),
   ("payload", Value.vStr "abc")]

/-- Counterexample to C5 as stated: an UPDATE whose string payload
`"abc"` cannot be coerced to the int type of the stored value raises a
`ValueError` that escapes `_manage_message` (only `TypeError` and
`KeyError` are caught), so message handling can raise out of the
dispatcher. -/
theorem claim5_counterexample :
    manageMessage c1Start wsUPDATE c5Msg
      = Except.error (PyErr.valueError "invalid literal for int") := rfl

/-- C5 as amended: the dispatcher catches exactly `TypeError` and
`KeyError` (logging a warning and dropping the message); an unknown
message type is ignored without a warning, and any other exception —
such as the `ValueError` from an uncoercible payload string or the
`AttributeError` for an unbound name — propagates out of
`_manage_message`.  Formally: an error that escapes is never a
`TypeError` or a `KeyError`. -/
theorem claim5_only_decode_errors_caught :
    ∀ st msgType message e,
      manageMessage st msgType message = Except.error e →
      e ≠ PyErr.typeError ∧ e ≠ PyErr.keyError := by
  intro st mt msg e h
  unfold manageMessage at h
  cases hr : manageMessageRaw st mt msg with
  | ok st1 => rw [hr] at h; exact Except.noConfusion h
  | error e1 =>
      rw [hr] at h
      cases e1 with
      | typeError => exact Except.noConfusion h
      | keyError => exact Except.noConfusion h
      | attributeError =>
          injection h with h2
          subst h2
          exact ⟨fun hx => PyErr.noConfusion hx, fun hx => PyErr.noConfusion hx⟩
      | valueError m =>
          injection h with h2
          subst h2
          exact ⟨fun hx => PyErr.noConfusion hx, fun hx => PyErr.noConfusion hx⟩
      | exception m =>
          injection h with h2
          subst h2
          exact ⟨fun hx => PyErr.noConfusion hx, fun hx => PyErr.noConfusion hx⟩

/-- Witness for C5 as amended: the error escaping on the uncoercible
payload `"abc"` is neither a `TypeError` nor a `KeyError`. -/
theorem claim5_witness :
    PyErr.valueError "invalid literal for int" ≠ PyErr.typeError ∧
    PyErr.valueError "invalid literal for int" ≠ PyErr.keyError :=
  claim5_only_decode_errors_caught c1Start wsUPDATE c5Msg
    (PyErr.valueError "invalid literal for int") rfl

/-- The action payloads on which `_on_action` reaches a callback at
all: the extracted action, when truthy, must be a string (a truthy
non-string action makes `hasattr` itself raise `TypeError` before any
callback is invoked, which is outside C6's scope). -/
def actionOk (payload : Value) : Bool :=
  match extractedAction payload with
  | none => true
  | some v =>
      if pyTruthy v then
        (match v with | Value.vStr _ => true | _ => false)
      else true

/-- C6: for every ACTION dispatch that reaches a callback (engine
attribute or the global action callback), an exception raised by the
invoked callback is caught inside `__call_function_with_args` and
`_on_action` returns normally — the exception never propagates to the
transport layer. -/
theorem claim6_action_exception_never_escapes :
    ∀ st id payload, actionOk payload = true →
      ∃ st1, onAction st id payload = Except.ok st1 := by
  intro st id payload hok
  have hengine : ∃ pr, onActionEngine st id payload (extractedAction payload)
      = Except.ok pr := by
    unfold onActionEngine
    cases hx : extractedAction payload with
    | none => exact ⟨_, rfl⟩
    | some v =>
        by_cases ht : pyTruthy v = true
        · have hv : ∃ a, v = Value.vStr a := by
            unfold actionOk at hok
            simp only [hx, ht, if_true] at hok
            cases v <;> simp_all
          obtain ⟨a, rfl⟩ := hv
          simp only [ht, Bool.not_true, Bool.false_eq_true, if_false]
          by_cases hb : hasattrGui st a = true
          · simp [hb]
          · simp [hb]
        · simp [ht]
  obtain ⟨pr, hpr⟩ := hengine
  unfold onAction
  simp only [hpr]
  rcases pr with ⟨st1, handled⟩
  cases handled with
  | true => exact ⟨st1, rfl⟩
  | false =>
      cases hfa : st1.actionFn with
      | none => exact ⟨st1, by simp [hfa]⟩
      | some f =>
          exact ⟨(callFunctionWithArgs st1 (some f) id
            (extractedAction payload) payload).1, by simp [hfa]⟩

def c6St : GuiState :=
  { initState with actionFn := some (ActionFn.mk "global_action" true 2 true) }

/-- Witness for C6: dispatching the action `"go"` to a registered
global callback whose body raises still returns normally. -/
theorem claim6_witness :
    actionOk (Value.vStr "go") = true ∧
    ∃ st1, onAction c6St none (Value.vStr "go") = Except.ok st1 :=
  ⟨rfl, claim6_action_exception_never_escapes c6St none (Value.vStr "go") rfl⟩

/-- C7: an ACTION whose (string, nonempty) action name matches no
attribute of the engine is not dropped: with a global action callback
registered (here declaring all four parameters and not raising), the
dispatcher invokes that callback, passing it the client id, the action
name and the raw payload. -/
theorem claim7_unknown_action_falls_back :
    ∀ st id payload a f,
      extractedAction payload = some (Value.vStr a) →
      a.isEmpty = false →
      hasattrGui st a = false →
      st.actionFn = some f →
      f.isFunctionType = true →
      f.argcount = 4 →
      f.raises = false →
      onAction st id payload = Except.ok
        { st with actionCalls := st.actionCalls ++
            [ActionCall.mk f.name [Arg.selfArg, Arg.clientId id,
              Arg.actionArg (Value.vStr a), Arg.payloadArg payload]] } := by
  intro st id payload a f hx hne hnb hfa hft hc hr
  unfold onAction
  unfold onActionEngine
  have ht : pyTruthy (Value.vStr a) = true := by simp [pyTruthy, hne]
  simp only [hx, ht, Bool.not_true, Bool.false_eq_true, if_false, hnb]
  simp only [hfa]
  unfold callFunctionWithArgs
  simp only [hft, hc, Bool.not_true, Bool.false_eq_true, if_false,
    show ((4 : Nat) == 0) = false from rfl,
    show ((4 : Nat) == 1) = false from rfl,
    show ((4 : Nat) == 2) = false from rfl,
    show ((4 : Nat) == 3) = false from rfl,
    show ((4 : Nat) == 4) = true from rfl, if_true]
  unfold runCallCaught invokeAction
  simp [hr, hfa]

def c7St : GuiState :=
  { initState with actionFn := some (ActionFn.mk "global_action" true 4 false) }

/-- Witness for C7: the unregistered action `"do_something"` reaches
the global callback with the client id, the action name and the raw
payload. -/
theorem claim7_witness :
    onAction c7St (some (Value.vStr "client1")) (Value.vStr "do_something")
      = Except.ok { c7St with actionCalls :=
          [ActionCall.mk "global_action" [Arg.selfArg,
            Arg.clientId (some (Value.vStr "client1")),
            Arg.actionArg (Value.vStr "do_something"),
            Arg.payloadArg (Value.vStr "do_something")]] } :=
  claim7_unknown_action_falls_back c7St (some (Value.vStr "client1"))
    (Value.vStr "do_something") "do_something"
    (ActionFn.mk "global_action" true 4 false) rfl rfl rfl rfl rfl rfl rfl

def c8End : GuiState := { initState with routes := ["initialize"] }

/-- Counterexample to C8 as stated: `add_page` accepts the route name
`"initialize"` without raising, although `"initialize"` is one of the
reserved system routes set up by the constructor — so a sequence of
successful calls can violate the no-reserved-collision half of the
invariant (`add_page` checks new names only against page routes, and
`add_partial` merely warns on duplicates and registers them anyway). -/
theorem claim8_counterexample :
    addPage initState "initialize" true = Except.ok c8End ∧
    "initialize" ∈ c8End.routes ∧
    "initialize" ∈ c8End.reservedRoutes :=
  ⟨rfl, by simp [c8End], by simp [c8End, initState]⟩

/-- C8 as amended: the uniqueness actually enforced is among page
routes only: a successful `add_page` call registers a route that was
not previously a page route and appends exactly it, so page routes stay
pairwise distinct; nothing rejects a collision with a reserved system
route or a partial route, and `add_partial` only warns on duplicates. -/
theorem claim8_page_route_registration :
    ∀ st name rendererOk st1,
      addPage st name rendererOk = Except.ok st1 →
      name ∉ st.routes ∧ st1.routes = st.routes ++ [name] ∧
      (st.routes.Nodup → st1.routes.Nodup) := by
  intro st name rok st1 h
  unfold addPage at h
  split at h
  · exact Except.noConfusion h
  split at h
  · exact Except.noConfusion h
  split at h
  · exact Except.noConfusion h
  rename_i hmem
  split at h
  · exact Except.noConfusion h
  injection h with h
  subst h
  refine ⟨hmem, rfl, ?_⟩
  intro hnd
  simp [List.nodup_append, hnd, List.disjoint_singleton, hmem]

/-- Witness for C8 as amended: registering the fresh route `"page1"`
into the fresh engine. -/
theorem claim8_witness :
    "page1" ∉ initState.routes ∧
    ({ initState with routes := ["page1"] } : GuiState).routes
      = initState.routes ++ ["page1"] ∧
    (initState.routes.Nodup →
      ({ initState with routes := ["page1"] } : GuiState).routes.Nodup) :=
  claim8_page_route_registration initState "page1" true
    { initState with routes := ["page1"] } rfl

end TaipyGui
